import Mathlib

/-!
Shallow embedding of src/build_directory.py: a pipeline that fetches
provider records from a registry API, filters them by taxonomy allowlist
and Indiana location, deduplicates by NPI, sorts, and emits a payload
with a stale-snapshot fallback.  Network effects are modelled by explicit
oracles (functions from request parameters to responses); wall-clock
timestamps are passed in as an explicit string parameter.
-/

namespace BuildDirectory

/-! ### Configuration constants (CONFIG section of the script) -/

def LIMIT : Nat := 200

def MAX_RETRIES : Nat := 5

def RETRY_STATUS_CODES : List Nat := [429, 500, 502, 503, 504]

def TAXONOMY_ALLOWLIST : List String :=
  ["207RE0101X", "2080P0205X", "207Q00000X", "207R00000X", "363L00000X", "363A00000X"]

def ENDO_TAXONOMY_CODES : List String := ["207RE0101X", "2080P0205X"]

/-! ### Data model

Raw registry items are Python dicts; missing keys are read with the
`(x.get(k) or "")` idiom throughout the script, so every string field is
modelled as a total `String` with `""` standing for a missing value. -/

structure Taxonomy where
  code : String
  desc : String
deriving DecidableEq, Repr

structure Address where
  address_purpose : String
  address_1 : String
  address_2 : String
  city : String
  state : String
  postal_code : String
  telephone_number : String
deriving DecidableEq, Repr

def emptyAddress : Address :=
  { address_purpose := "", address_1 := "", address_2 := "", city := "", state := "",
    postal_code := "", telephone_number := "" }

structure Basic where
  organization_name : String
  first_name : String
  last_name : String
  credential : String
  enumeration_date : String
deriving DecidableEq, Repr

structure Item where
  number : String
  basic : Basic
  taxonomies : List Taxonomy
  addresses : List Address
  authorized_official_org : String
deriving DecidableEq, Repr

/-- Output provider record as built by build_provider_record.  The
years_in_practice_proxy field is omitted: it is a float computed from the
wall clock (years_since), outside the shallow embedding; no claim uses it. -/
structure Provider where
  npi : String
  provider_type : String
  name : String
  credential : String
  clinic : String
  taxonomy : String
  is_endocrinologist : Bool
  phone : String
  address : String
  city : String
  state : String
  zip : String
  enumeration_date : String
deriving DecidableEq, Repr

/-! ### Helpers

String primitives are embedded over the character list of the string
(String.data), which computes by structural recursion; the byte-indexed
core implementations (String.trim, String.toLower, ...) have the same
character-level semantics but do not reduce inside the kernel. -/

/-- Embeds str.lower(): lowercase every character. -/
def str_lower (s : String) : String :=
  String.mk (s.data.map Char.toLower)

/-- Embeds str.upper(): uppercase every character. -/
def str_upper (s : String) : String :=
  String.mk (s.data.map Char.toUpper)

/-- Embeds str.strip(): drop whitespace from both ends. -/
def str_trim (s : String) : String :=
  String.mk (((s.data.dropWhile Char.isWhitespace).reverse.dropWhile
    Char.isWhitespace).reverse)

/-- Embeds clean_phone: strip non-digits; if exactly 10 digits remain,
format as (ddd) ddd-dddd, else return the stripped input. -/
def clean_phone (phone : String) : String :=
  if phone = "" then ""
  else
    let digits := phone.data.filter Char.isDigit
    if digits.length = 10 then
      "(" ++ String.mk (digits.take 3) ++ ") " ++ String.mk ((digits.drop 3).take 3)
        ++ "-" ++ String.mk ((digits.drop 6).take 4)
    else str_trim phone

/-- Embeds normalize_state: (st or "").strip().upper(). -/
def normalize_state (st : String) : String :=
  str_upper (str_trim st)

/-! ### Resilient HTTP fetch (safe_get_json)

The requests library is modelled by an oracle mapping the attempt number
(1-based) to the outcome of that attempt: either a raised exception or a
response with a status code and an optional parsed JSON body (none when
r.json() raises, i.e. the body does not parse).  The Python function can
only return a value or None - the embedding returns Option, so the
"never raises" half of the contract is the totality of this function. -/

inductive NetOutcome (α : Type) where
  | exn : NetOutcome α
  | resp (status_code : Nat) (body : Option α) : NetOutcome α
deriving DecidableEq, Repr

/-- Loop body of safe_get_json over the remaining attempt numbers:
an exception or a retryable status moves to the next attempt, any other
non-200 status returns none immediately, a 200 returns the parse result. -/
def safe_get_json_loop (oracle : Nat → NetOutcome α) : List Nat → Option α
  | [] => none
  | attempt :: rest =>
    match oracle attempt with
    | .exn => safe_get_json_loop oracle rest
    | .resp status body =>
      if RETRY_STATUS_CODES.contains status then safe_get_json_loop oracle rest
      else if status ≠ 200 then none
      else body

/-- Embeds safe_get_json: for attempt in range(1, MAX_RETRIES + 1). -/
def safe_get_json (oracle : Nat → NetOutcome α) : Option α :=
  safe_get_json_loop oracle (List.range' 1 MAX_RETRIES)

/-- Outcome of one attempt that is a failure of any class: a raised
exception, a non-success status, or a body that fails to parse as JSON. -/
def attempt_fails : NetOutcome α → Bool
  | .exn => true
  | .resp status body => status != 200 || body.isNone

/-! ### Registry paginator (fetch_city)

The API is modelled by an oracle mapping the skip offset to the response
for that page (none = safe_get_json returned a falsy value).  The
embedding is instrumented: it returns the list of skip offsets requested
in order, alongside the concatenated records, so that claims about which
page requests are issued are statable. -/

structure PageResponse (α : Type) where
  result_count : Nat
  results : List α
deriving DecidableEq, Repr

def page_records : Option (PageResponse α) → List α
  | none => []
  | some d => d.results

/-- Embeds fetch_city.  pages = int(math.ceil(total / LIMIT)) is embedded
as the exact integer ceiling (total + LIMIT - 1) / LIMIT, which agrees
with the float computation at every realistic magnitude.  A page whose
fetch fails (oracle returns none) contributes zero records and the loop
continues. -/
def fetch_city (oracle : Nat → Option (PageResponse α)) : List Nat × List α :=
  match oracle 0 with
  | none => ([0], [])
  | some data =>
    let total := data.result_count
    let results := data.results
    if total ≤ LIMIT then ([0], results)
    else
      let pages := (total + LIMIT - 1) / LIMIT
      let skips := (List.range' 1 (pages - 1)).map (· * LIMIT)
      (0 :: skips, skips.foldl (fun acc skip => acc ++ page_records (oracle skip)) results)

/-! ### Record predicates and projections -/

/-- Embeds taxonomy_codes: the stripped nonempty codes of the item. -/
def taxonomy_codes (item : Item) : List String :=
  (item.taxonomies.map (fun t => str_trim t.code)).filter (fun c => c ≠ "")

/-- Embeds provider_matches_taxonomy. -/
def provider_matches_taxonomy (item : Item) : Bool :=
  (taxonomy_codes item).any (fun code => TAXONOMY_ALLOWLIST.contains code)

/-- Embeds is_endocrinologist. -/
def is_endocrinologist (item : Item) : Bool :=
  (taxonomy_codes item).any (fun code => ENDO_TAXONOMY_CODES.contains code)

/-- Test applied to each address by pick_location_address:
(a.get("address_purpose") or "").lower() == "location". -/
def is_location_tag (a : Address) : Bool :=
  str_lower a.address_purpose == "location"

/-- Embeds pick_location_address: first address whose purpose lowercases
to "location", else the first address, else the empty dict. -/
def pick_location_address (item : Item) : Address :=
  match item.addresses.find? is_location_tag with
  | some a => a
  | none => item.addresses.headD emptyAddress

/-- Embeds is_indiana_location. -/
def is_indiana_location (addr : Address) : Bool :=
  normalize_state addr.state == "IN"

/-- Embeds clinic_or_place_of_work. -/
def clinic_or_place_of_work (item : Item) : String :=
  let org_name := str_trim item.basic.organization_name
  if org_name ≠ "" then org_name
  else
    let auth_org := str_trim item.authorized_official_org
    if auth_org ≠ "" then auth_org
    else ""

/-- Embeds build_taxonomy_text: labels (desc or code) of allowlisted
taxonomies, deduplicated, sorted ascending, joined with a comma.
Python's sorted(set(xs)) is the deduplicated list sorted ascending. -/
def build_taxonomy_text (item : Item) : String :=
  let labels := item.taxonomies.filterMap (fun t =>
    let code := str_trim t.code
    let desc := str_trim t.desc
    if TAXONOMY_ALLOWLIST.contains code then some (if desc ≠ "" then desc else code)
    else none)
  String.intercalate ", " (((labels.filter (fun x => x ≠ "")).dedup).mergeSort
    (fun a b => decide (a ≤ b)))

/-- Embeds build_provider_record (minus the wall-clock tenure proxy). -/
def build_provider_record (item : Item) (addr : Address) : Provider :=
  let basic := item.basic
  let npi := item.number
  let enum_date := str_trim basic.enumeration_date
  let org := basic.organization_name
  let provider_type := if org ≠ "" then "Organization" else "Individual"
  let credential := if org ≠ "" then "" else str_trim basic.credential
  let provider_name :=
    if org ≠ "" then str_trim org
    else
      let first := str_trim basic.first_name
      let last := str_trim basic.last_name
      let base := str_trim (String.intercalate " " (([first, last]).filter (fun x => x ≠ "")))
      if credential ≠ "" then str_trim (base ++ ", " ++ credential) else base
  let a1 := str_trim addr.address_1
  let a2 := str_trim addr.address_2
  { npi := npi
    provider_type := provider_type
    name := provider_name
    credential := credential
    clinic := clinic_or_place_of_work item
    taxonomy := build_taxonomy_text item
    is_endocrinologist := is_endocrinologist item
    phone := clean_phone addr.telephone_number
    address := str_trim (a1 ++ (if a2 ≠ "" then " " ++ a2 else ""))
    city := str_trim addr.city
    state := normalize_state addr.state
    zip := str_trim (String.mk (addr.postal_code.data.takeWhile (fun c => c ≠ Char.ofNat 45)))
    enumeration_date := enum_date }

/-! ### Payloads and the snapshot store -/

/-- Snapshot shape: the payload as written to data/last_good_payload.json
(the stale/note/territory fields are added to the in-memory dict only
after the file is written, so the snapshot never carries them). -/
structure Snapshot where
  generated_utc : String
  count : Nat
  providers : List Provider
deriving DecidableEq, Repr

/-- Emitted payload: the dict handed to the HTML templating step. -/
structure Payload where
  generated_utc : String
  count : Nat
  providers : List Provider
  stale : Bool
  note : String
  territory_rule : String
deriving DecidableEq, Repr

def TERRITORY_RULE : String := "LOCATION state must equal IN (hard filtered)"

def STALE_NOTE : String :=
  "API returned no usable data this run; showing last successful snapshot (IN-only sanitized)."

def NO_SNAPSHOT_NOTE : String := "No usable data and no prior snapshot found yet."

/-- Embeds sanitize_payload_in_only: keep only providers whose normalized
state is IN, and reset the count to the surviving length. -/
def sanitize_payload_in_only (payload : Snapshot) : Snapshot :=
  let prov_in := payload.providers.filter (fun p => normalize_state p.state == "IN")
  { generated_utc := payload.generated_utc, count := prov_in.length, providers := prov_in }

/-! ### Accumulation (the by_npi / addr_by_npi dicts in main)

A Python dict is embedded as an association list with dict semantics:
inserting an existing key replaces its value in place, a new key is
appended.  The script keeps two dicts keyed identically and updated at
the same program point, so they are embedded as one association list
whose values are the (item, picked address) pair. -/

def dictInsert (k : String) (v : α) : List (String × α) → List (String × α)
  | [] => [(k, v)]
  | (k', v') :: rest => if k' = k then (k, v) :: rest else (k', v') :: dictInsert k v rest

def dictLookup (k : String) : List (String × α) → Option α
  | [] => none
  | (k', v) :: rest => if k' = k then some v else dictLookup k rest

/-- One iteration of the accumulation loop in main: skip items failing
the taxonomy allowlist, items with an empty NPI, and items whose picked
location address is not in Indiana; store the rest keyed by NPI. -/
def accumulate_step (acc : List (String × Item × Address)) (item : Item) :
    List (String × Item × Address) :=
  if ¬ provider_matches_taxonomy item then acc
  else if item.number = "" then acc
  else
    let addr := pick_location_address item
    if ¬ is_indiana_location addr then acc
    else dictInsert item.number (item, addr) acc

/-- Embeds the accumulation loop of main over all fetched items. -/
def accumulate (items : List Item) : List (String × Item × Address) :=
  items.foldl accumulate_step []

/-- Eligibility of a raw item, exactly the conjunction of the three
guards of the accumulation loop. -/
def eligible (item : Item) : Bool :=
  provider_matches_taxonomy item && item.number != "" &&
    is_indiana_location (pick_location_address item)

/-! ### Ranking (the sort in main)

The script sorts by the key tuple (0 if endocrinologist else 1, city,
name); Python compares key tuples lexicographically and string components
case-sensitively by code point, which is the lexicographic order on the
product below.  Python's sort and mergeSort are both stable, so sorting
with this comparator reproduces the script's ordering. -/

def sort_key (p : Provider) : Lex (Nat × Lex (String × String)) :=
  toLex ((if p.is_endocrinologist then 0 else 1), toLex (p.city, p.name))

def sort_key_le (p q : Provider) : Bool :=
  decide (sort_key p ≤ sort_key q)

/-! ### The orchestrator (main)

Inputs: the wall-clock timestamp string, the concatenated items fetched
for all seed cities, and the parsed snapshot file (none when the file is
missing, unreadable, not a dict, or lacks a providers key).  Output: the
emitted payload and the snapshot write (none = the snapshot file is left
untouched). -/

def fresh_providers (items : List Item) : List Provider :=
  let providers0 := (accumulate items).map (fun e => build_provider_record e.2.1 e.2.2)
  let providers1 := providers0.filter (fun p => normalize_state p.state == "IN")
  providers1.mergeSort sort_key_le

def fresh_snapshot (now_utc : String) (items : List Item) : Snapshot :=
  { generated_utc := now_utc, count := (fresh_providers items).length,
    providers := fresh_providers items }

/-- Embeds main from the end of the accumulation loop to the payload
handed to templating, together with the conditional snapshot write. -/
def main_payload (now_utc : String) (items : List Item) (cached : Option Snapshot) :
    Payload × Option Snapshot :=
  if accumulate items = [] then
    match cached with
    | some c =>
      let s := sanitize_payload_in_only c
      ({ generated_utc := s.generated_utc, count := s.count, providers := s.providers,
         stale := true, note := STALE_NOTE, territory_rule := TERRITORY_RULE }, none)
    | none =>
      ({ generated_utc := now_utc, count := 0, providers := [], stale := true,
         note := NO_SNAPSHOT_NOTE, territory_rule := TERRITORY_RULE }, none)
  else
    let s := fresh_snapshot now_utc items
    ({ generated_utc := s.generated_utc, count := s.count, providers := s.providers,
       stale := false, note := "", territory_rule := TERRITORY_RULE }, some s)

/-! ### Geocoding (spec section 4.4)

The geocoding component is described by the specification but its code is
not among the source files; only the rest of the pipeline is.  It is
therefore modelled from the specification's contract. -/

/-- Modelled from the spec: the cache-key normalization of section 4.4
step 1 (case-fold, strip terminal punctuation, collapse whitespace); the
geocoder's source is not among the source files. -/
def normalize_addr_key (s : String) : String :=
  let lowered := s.toLower.trim
  let stripped := lowered.dropRightWhile (fun c => c == '.' || c == ',')
  String.intercalate " " ((stripped.split (fun c => c.isWhitespace)).filter (fun w => w ≠ ""))

inductive CacheEntry (γ : Type) where
  | ok (coords : γ) : CacheEntry γ
  | err : CacheEntry γ
deriving DecidableEq, Repr

/-- Result of one geocode call: the returned value, how many external
lookup requests were issued during the call, and the updated cache and
remaining-budget counter. -/
structure GeocodeResult (γ : Type) where
  value : Option γ
  network_calls : Nat
  cache : List (String × CacheEntry γ)
  remaining : Nat
deriving DecidableEq, Repr

/-- Modelled from the spec: geocode (section 4.4), whose source is not
among the source files.  Coordinates are an abstract type γ and the
external service is an oracle from the normalized key to an optional
coordinate pair (none = any failure class).  Steps: cached success or
error marker answers without a network call; an exhausted budget answers
null without a network call; otherwise exactly one lookup is issued, a
success is cached and decrements the budget, a failure caches an error
marker. -/
def geocode (lookup : String → Option γ) (cache : List (String × CacheEntry γ))
    (remaining : Nat) (address_text : String) : GeocodeResult γ :=
  let key := normalize_addr_key address_text
  match dictLookup key cache with
  | some (.ok coords) =>
    { value := some coords, network_calls := 0, cache := cache, remaining := remaining }
  | some .err =>
    { value := none, network_calls := 0, cache := cache, remaining := remaining }
  | none =>
    if remaining = 0 then
      { value := none, network_calls := 0, cache := cache, remaining := remaining }
    else
      match lookup key with
      | some coords =>
        { value := some coords, network_calls := 1,
          cache := dictInsert key (.ok coords) cache, remaining := remaining - 1 }
      | none =>
        { value := none, network_calls := 1,
          cache := dictInsert key .err cache, remaining := remaining }

/-! ### Helper lemmas -/

lemma safe_get_json_loop_eq_none (oracle : Nat → NetOutcome α)
    (h : ∀ n, attempt_fails (oracle n) = true) :
    ∀ attempts, safe_get_json_loop oracle attempts = none := by
  intro attempts
  induction attempts with
  | nil => rfl
  | cons a rest ih =>
    have hf := h a
    cases hx : oracle a with
    | exn => simp [safe_get_json_loop, hx, ih]
    | resp status body =>
      rw [hx] at hf
      simp only [attempt_fails, Bool.or_eq_true, bne_iff_ne, ne_eq,
        Option.isNone_iff_eq_none] at hf
      simp only [safe_get_json_loop, hx]
      by_cases hr : RETRY_STATUS_CODES.contains status = true
      · rw [if_pos hr]; exact ih
      · rw [if_neg hr]
        by_cases hs : status = 200
        · subst hs
          rw [if_neg (fun hcon => hcon rfl)]
          rcases hf with hf | hf
          · exact absurd rfl hf
          · exact hf
        · rw [if_pos hs]

/-! ### Claim theorems -/

/-- C1: for every sequence of network outcomes - raised exceptions,
transient statuses, other non-success statuses, and unparseable bodies -
safe_get_json returns the sentinel none whenever every attempt fails;
together with its Option return type (the embedding is a total function)
this is the contract that the fetch never raises and collapses every
failure class to null. -/
theorem claim_C1 (oracle : Nat → NetOutcome α)
    (h : ∀ n, attempt_fails (oracle n) = true) :
    safe_get_json oracle = none :=
  safe_get_json_loop_eq_none oracle h _

/-- Witness for C1 at the oracle that raises on every attempt. -/
theorem claim_C1_witness :
    (∀ n : Nat, attempt_fails ((fun _ => NetOutcome.exn) n : NetOutcome Nat) = true) ∧
      safe_get_json (fun _ => (NetOutcome.exn : NetOutcome Nat)) = none :=
  ⟨fun _ => rfl, claim_C1 _ (fun _ => rfl)⟩

/-- C5: when the first page reports result_count = 450 with page size
200, exactly three page requests are issued, at offsets 0, 200 and 400,
and the emitted records are the concatenation of the three pages, a
failed page (oracle answering none) contributing the empty list without
aborting the others. -/
theorem claim_C5 (oracle : Nat → Option (PageResponse α)) (r0 : List α)
    (h : oracle 0 = some { result_count := 450, results := r0 }) :
    (fetch_city oracle).1 = [0, 200, 400] ∧
      (fetch_city oracle).2 =
        r0 ++ (page_records (oracle 200) ++ page_records (oracle 400)) := by
  have hfc : fetch_city oracle =
      ([0, 200, 400], (r0 ++ page_records (oracle 200)) ++ page_records (oracle 400)) := by
    unfold fetch_city
    rw [h]
    norm_num [LIMIT, List.range']
  rw [hfc]
  exact ⟨rfl, by simp [List.append_assoc]⟩

def demo_oracle_C5 : Nat → Option (PageResponse Nat) := fun skip =>
  if skip = 0 then some { result_count := 450, results := [1, 2] }
  else if skip = 200 then none
  else some { result_count := 450, results := [3] }

/-- Witness for C5: a concrete oracle whose middle page fails; the three
offsets are requested and the failed page contributes zero records. -/
theorem claim_C5_witness :
    (fetch_city demo_oracle_C5).1 = [0, 200, 400] ∧
      (fetch_city demo_oracle_C5).2 =
        [1, 2] ++ (page_records (demo_oracle_C5 200) ++ page_records (demo_oracle_C5 400)) :=
  claim_C5 demo_oracle_C5 [1, 2] rfl

/-- C7: the selected address is the first one tagged (case-insensitively)
as the location; with no such tag the first address is selected; hence
whenever a location-tagged address exists the selected address carries
the location tag, so a mailing address is never selected in that case. -/
theorem claim_C7 (item : Item) (pre : List Address) (a₁ : Address) (post : List Address) :
    (item.addresses = pre ++ a₁ :: post → is_location_tag a₁ = true →
      (∀ b ∈ pre, is_location_tag b = false) → pick_location_address item = a₁) ∧
    ((∀ a ∈ item.addresses, is_location_tag a = false) →
      pick_location_address item = item.addresses.headD emptyAddress) ∧
    (item.addresses.any is_location_tag = true →
      is_location_tag (pick_location_address item) = true) := by
  refine ⟨?_, ?_, ?_⟩
  · intro heq h1 hpre
    have hfind : item.addresses.find? is_location_tag = some a₁ := by
      rw [heq, List.find?_append]
      have hnone : pre.find? is_location_tag = none :=
        List.find?_eq_none.mpr (fun b hb => by simp [hpre b hb])
      simp [hnone, List.find?_cons, h1]
    simp [pick_location_address, hfind]
  · intro hall
    have hnone : item.addresses.find? is_location_tag = none :=
      List.find?_eq_none.mpr (fun b hb => by simp [hall b hb])
    simp [pick_location_address, hnone]
  · intro hany
    have hsome : (item.addresses.find? is_location_tag).isSome := by
      rw [List.find?_isSome]
      simpa using List.any_eq_true.mp hany
    rcases Option.isSome_iff_exists.mp hsome with ⟨a, ha⟩
    have := List.find?_some ha
    simp [pick_location_address, ha, this]

def demo_addr_mailing : Address :=
  { emptyAddress with address_purpose := "MAILING", state := "TX", city := "Austin" }

def demo_addr_location : Address :=
  { emptyAddress with address_purpose := "LOCATION", state := " in", city := "Carmel" }

def demo_item_C7 : Item :=
  { number := "100"
    basic := { organization_name := "Acme Clinic", first_name := "", last_name := "",
               credential := "", enumeration_date := "2001-02-03" }
    taxonomies := [{ code := "207Q00000X", desc := "" }]
    addresses := [demo_addr_mailing, demo_addr_location]
    authorized_official_org := "" }

/-- Witness for C7: the mailing address comes first but the
location-tagged address is selected. -/
theorem claim_C7_witness : pick_location_address demo_item_C7 = demo_addr_location :=
  (claim_C7 demo_item_C7 [demo_addr_mailing] demo_addr_location []).1 rfl (by decide)
    (by decide)

/-- C9: the IN-only sanitization is idempotent, and on a payload whose
providers are all already territory-compliant it returns the identical
provider list. -/
theorem claim_C9 (s : Snapshot) :
    sanitize_payload_in_only (sanitize_payload_in_only s) = sanitize_payload_in_only s ∧
      ((∀ p ∈ s.providers, normalize_state p.state = "IN") →
        (sanitize_payload_in_only s).providers = s.providers) := by
  constructor
  · simp [sanitize_payload_in_only, List.filter_filter]
  · intro h
    simp only [sanitize_payload_in_only]
    exact List.filter_eq_self.mpr (fun p hp => by simp [h p hp])

def demo_provider_IN : Provider :=
  { npi := "100", provider_type := "Organization", name := "Acme Clinic", credential := "",
    clinic := "Acme Clinic", taxonomy := "207RE0101X", is_endocrinologist := true,
    phone := "", address := "", city := "Carmel", state := "IN", zip := "",
    enumeration_date := "2001-02-03" }

def demo_snap_C9 : Snapshot :=
  { generated_utc := "T", count := 1, providers := [demo_provider_IN] }

/-- Witness for C9 on a snapshot that is already territory-compliant. -/
theorem claim_C9_witness :
    (sanitize_payload_in_only demo_snap_C9).providers = demo_snap_C9.providers :=
  (claim_C9 demo_snap_C9).2 (by decide)

/-- C10: with the per-run budget exhausted (remaining = 0) and the
normalized address absent from the cache, geocode returns null and issues
no network request. -/
theorem claim_C10 (lookup : String → Option γ) (cache : List (String × CacheEntry γ))
    (addr : String) (h : dictLookup (normalize_addr_key addr) cache = none) :
    (geocode lookup cache 0 addr).value = none ∧
      (geocode lookup cache 0 addr).network_calls = 0 := by
  simp [geocode, h]

/-- Witness for C10 at an empty cache and an always-successful service. -/
theorem claim_C10_witness :
    (geocode (fun _ => some (5 : Nat)) [] 0 "X St.").value = none ∧
      (geocode (fun _ => some (5 : Nat)) [] 0 "X St.").network_calls = 0 :=
  claim_C10 _ [] "X St." rfl

/-! ### Dictionary and accumulation lemmas -/

lemma dictLookup_dictInsert_self (k : String) (v : α) :
    ∀ l, dictLookup k (dictInsert k v l) = some v := by
  intro l
  induction l with
  | nil => simp [dictInsert, dictLookup]
  | cons hd tl ih =>
    obtain ⟨k', v'⟩ := hd
    by_cases h : k' = k
    · simp [dictInsert, dictLookup, h]
    · simp [dictInsert, dictLookup, h, ih]

lemma dictLookup_dictInsert_ne (k k' : String) (v : α) (h : k' ≠ k) :
    ∀ l, dictLookup k (dictInsert k' v l) = dictLookup k l := by
  intro l
  induction l with
  | nil => simp [dictInsert, dictLookup, h]
  | cons hd tl ih =>
    obtain ⟨a, b⟩ := hd
    by_cases ha : a = k'
    · subst ha
      simp [dictInsert, dictLookup, h]
    · simp [dictInsert, dictLookup, ha, ih]

lemma mem_dictInsert (k : String) (v : α) (e : String × α) :
    ∀ l, e ∈ dictInsert k v l → e = (k, v) ∨ e ∈ l := by
  intro l
  induction l with
  | nil => simp [dictInsert]
  | cons hd tl ih =>
    obtain ⟨a, b⟩ := hd
    by_cases ha : a = k
    · simp only [dictInsert, if_pos ha, List.mem_cons]
      rintro (h | h)
      · exact Or.inl h
      · exact Or.inr (Or.inr h)
    · simp only [dictInsert, if_neg ha, List.mem_cons]
      rintro (h | h)
      · exact Or.inr (Or.inl h)
      · rcases ih h with h' | h'
        · exact Or.inl h'
        · exact Or.inr (Or.inr h')

lemma nodup_keys_dictInsert (k : String) (v : α) :
    ∀ l : List (String × α), (l.map Prod.fst).Nodup →
      ((dictInsert k v l).map Prod.fst).Nodup := by
  intro l
  induction l with
  | nil => simp [dictInsert]
  | cons hd tl ih =>
    obtain ⟨a, b⟩ := hd
    intro hnd
    simp only [List.map_cons, List.nodup_cons] at hnd
    by_cases ha : a = k
    · subst ha
      simpa [dictInsert, List.nodup_cons] using hnd
    · simp only [dictInsert, if_neg ha, List.map_cons, List.nodup_cons]
      refine ⟨?_, ih hnd.2⟩
      intro hmem
      rcases List.mem_map.mp hmem with ⟨e, he, hfst⟩
      rcases mem_dictInsert k v e tl he with h' | h'
      · exact ha (by rw [← hfst, h'])
      · exact hnd.1 (List.mem_map.mpr ⟨e, h', hfst⟩)

/-- Characterization of one accumulation step as a guarded dict insert. -/
lemma accumulate_step_eq (acc : List (String × Item × Address)) (item : Item) :
    accumulate_step acc item =
      if eligible item = true then
        dictInsert item.number (item, pick_location_address item) acc
      else acc := by
  by_cases h1 : provider_matches_taxonomy item = true
  · by_cases h2 : item.number = ""
    · simp [accumulate_step, eligible, h1, h2]
    · by_cases h3 : is_indiana_location (pick_location_address item) = true
      · simp [accumulate_step, eligible, h1, h2, h3]
      · simp [accumulate_step, eligible, h1, h2, h3]
  · simp [accumulate_step, eligible, h1]

/-- Last-write-wins invariant of the accumulation loop: looking up a key
in the accumulated dict finds the latest eligible item with that NPI. -/
lemma dictLookup_foldl_accumulate (k : String) :
    ∀ (items : List Item) (acc : List (String × Item × Address)),
      dictLookup k (items.foldl accumulate_step acc) =
        match items.reverse.find? (fun it => eligible it && it.number == k) with
        | some it => some (it, pick_location_address it)
        | none => dictLookup k acc := by
  intro items
  induction items with
  | nil => intro acc; rfl
  | cons it rest ih =>
    intro acc
    rw [List.foldl_cons, ih, List.reverse_cons, List.find?_append]
    cases hfind : rest.reverse.find? (fun it => eligible it && it.number == k) with
    | some u => simp [Option.or]
    | none =>
      simp only [Option.none_or]
      rw [accumulate_step_eq]
      by_cases he : eligible it = true
      · rw [if_pos he]
        by_cases hk : it.number = k
        · have hp : (eligible it && it.number == k) = true := by simp [he, hk]
          rw [hk]
          simp only [List.find?_cons, hp]
          exact dictLookup_dictInsert_self k _ acc
        · have hp : (eligible it && it.number == k) = false := by simp [hk]
          simp [List.find?_cons, hp, dictLookup_dictInsert_ne k it.number _ hk acc]
      · rw [if_neg he]
        have hp : (eligible it && it.number == k) = false := by
          simp [Bool.eq_false_iff.mpr he]
        simp [List.find?_cons, hp]

lemma dictLookup_accumulate (k : String) (items : List Item) :
    dictLookup k (accumulate items) =
      (items.reverse.find? (fun it => eligible it && it.number == k)).map
        (fun it => (it, pick_location_address it)) := by
  rw [accumulate, dictLookup_foldl_accumulate k items []]
  cases hfind : items.reverse.find? (fun it => eligible it && it.number == k) <;>
    simp [dictLookup]

/-- Every entry of the accumulated dict is an eligible item keyed by its
own NPI, stored together with its picked location address. -/
lemma accumulate_foldl_entries :
    ∀ (items : List Item) (acc : List (String × Item × Address)),
      ∀ e ∈ items.foldl accumulate_step acc,
        (eligible e.2.1 = true ∧ e.1 = e.2.1.number ∧
          e.2.2 = pick_location_address e.2.1) ∨ e ∈ acc := by
  intro items
  induction items with
  | nil => intro acc e he; exact Or.inr he
  | cons it rest ih =>
    intro acc e he
    rw [List.foldl_cons] at he
    rcases ih (accumulate_step acc it) e he with h | h
    · exact Or.inl h
    · rw [accumulate_step_eq] at h
      by_cases heg : eligible it = true
      · rw [if_pos heg] at h
        rcases mem_dictInsert _ _ _ _ h with h' | h'
        · exact Or.inl (by simp [h', heg])
        · exact Or.inr h'
      · rw [if_neg heg] at h
        exact Or.inr h

lemma accumulate_foldl_nodup :
    ∀ (items : List Item) (acc : List (String × Item × Address)),
      (acc.map Prod.fst).Nodup →
      ((items.foldl accumulate_step acc).map Prod.fst).Nodup := by
  intro items
  induction items with
  | nil => intro acc h; exact h
  | cons it rest ih =>
    intro acc h
    rw [List.foldl_cons]
    refine ih _ ?_
    rw [accumulate_step_eq]
    by_cases heg : eligible it = true
    · rw [if_pos heg]
      exact nodup_keys_dictInsert _ _ acc h
    · rwa [if_neg heg]

/-! ### Orchestrator claims -/

/-- C2: every provider record in the emitted payload has a normalized
state equal to IN, on all three paths of main (fresh accumulation with
its final guard, the sanitized stale snapshot, and the empty fallback),
so no record can leak past the active territory rule. -/
theorem claim_C2 (now : String) (items : List Item) (cached : Option Snapshot) :
    ∀ p ∈ (main_payload now items cached).1.providers, normalize_state p.state = "IN" := by
  intro p hp
  by_cases h : accumulate items = []
  · rcases cached with _ | c
    · simp [main_payload, h] at hp
    · simp only [main_payload, if_pos h, sanitize_payload_in_only] at hp
      simpa using (List.mem_filter.mp hp).2
  · simp only [main_payload, if_neg h, fresh_snapshot, fresh_providers] at hp
    rw [List.mem_mergeSort] at hp
    simpa using (List.mem_filter.mp hp).2

/-- Witness for C2 on the stale-snapshot path. -/
theorem claim_C2_witness : normalize_state demo_provider_IN.state = "IN" :=
  claim_C2 "NOW" [] (some demo_snap_C9) demo_provider_IN (by decide)

def demo_provider_no_taxonomy : Provider :=
  { npi := "999", provider_type := "Individual", name := "Pat Doe", credential := "",
    clinic := "", taxonomy := "", is_endocrinologist := false, phone := "", address := "",
    city := "Gary", state := "IN", zip := "", enumeration_date := "" }

def demo_snap_C3 : Snapshot :=
  { generated_utc := "OLD", count := 1, providers := [demo_provider_no_taxonomy] }

/-- Counterexample to C3 as stated: a run with zero eligible records and
an existing snapshot holding a record that matches no allowlisted
classification (its matched-classification text is empty, so it violates
the taxonomy constraint).  The claim requires every record non-compliant
with the territory/taxonomy constraints to be excluded from the reused
payload, but the snapshot sanitization re-checks only the territory rule,
so this record is retained. -/
theorem claim_C3_counterexample :
    accumulate [] = [] ∧
    demo_provider_no_taxonomy.taxonomy = "" ∧
    (main_payload "NOW" [] (some demo_snap_C3)).1.providers = [demo_provider_no_taxonomy] ∧
    (main_payload "NOW" [] (some demo_snap_C3)).1.stale = true :=
  ⟨rfl, rfl, by decide, by decide⟩

/-- C3 (amended): when a run yields zero eligible records and a prior
snapshot with a providers list exists, the emitted payload is that
snapshot re-filtered to the current territory constraint only (records
whose normalized state is not IN excluded; taxonomy is not re-checked on
snapshot records), with stale = true and an explanatory note; when no
such snapshot exists, the emitted payload is an empty but valid payload
(count 0, empty providers list) with stale = true, and the embedding is
total, so no crash occurs. -/
theorem claim_C3 (now : String) (items : List Item) (cached : Option Snapshot)
    (h : accumulate items = []) :
    (∀ c, cached = some c →
      (main_payload now items cached).1 =
        { generated_utc := (sanitize_payload_in_only c).generated_utc,
          count := (sanitize_payload_in_only c).count,
          providers := (sanitize_payload_in_only c).providers,
          stale := true, note := STALE_NOTE, territory_rule := TERRITORY_RULE }) ∧
    (cached = none →
      (main_payload now items cached).1 =
        { generated_utc := now, count := 0, providers := [], stale := true,
          note := NO_SNAPSHOT_NOTE, territory_rule := TERRITORY_RULE }) := by
  constructor
  · intro c hc
    subst hc
    simp [main_payload, h]
  · intro hc
    subst hc
    simp [main_payload, h]

/-- Witness for C3 (amended) on a concrete snapshot. -/
theorem claim_C3_witness :
    (main_payload "NOW" [] (some demo_snap_C9)).1 =
      { generated_utc := (sanitize_payload_in_only demo_snap_C9).generated_utc,
        count := (sanitize_payload_in_only demo_snap_C9).count,
        providers := (sanitize_payload_in_only demo_snap_C9).providers,
        stale := true, note := STALE_NOTE, territory_rule := TERRITORY_RULE } :=
  (claim_C3 "NOW" [] (some demo_snap_C9) rfl).1 demo_snap_C9 rfl

/-- C4: the snapshot store is written exactly when the run accumulates at
least one eligible record, and what is written is the newly computed
fresh payload; a stale run (empty accumulation) writes nothing. -/
theorem claim_C4 (now : String) (items : List Item) (cached : Option Snapshot) :
    (main_payload now items cached).2 =
      if accumulate items = [] then none else some (fresh_snapshot now items) := by
  by_cases h : accumulate items = []
  · rcases cached with _ | c <;> simp [main_payload, h]
  · simp [main_payload, h]

/-- C6: only eligible records enter the NPI-keyed accumulation map, each
stored under its own NPI together with its picked address; lookup finds
the latest eligible observation of that NPI (last-write-wins); and the
emitted fresh payload carries no duplicate NPI. -/
theorem claim_C6 (now : String) (items : List Item) (cached : Option Snapshot) :
    (∀ e ∈ accumulate items,
        eligible e.2.1 = true ∧ e.1 = e.2.1.number ∧
          e.2.2 = pick_location_address e.2.1) ∧
    (∀ k : String, dictLookup k (accumulate items) =
        (items.reverse.find? (fun it => eligible it && it.number == k)).map
          (fun it => (it, pick_location_address it))) ∧
    (accumulate items ≠ [] →
        ((main_payload now items cached).1.providers.map (fun p => p.npi)).Nodup) := by
  refine ⟨?_, ?_, ?_⟩
  · intro e he
    rcases accumulate_foldl_entries items [] e he with h | h
    · exact h
    · simp at h
  · intro k
    exact dictLookup_accumulate k items
  · intro h
    simp only [main_payload, if_neg h, fresh_snapshot, fresh_providers]
    have hkeys : (((accumulate items).map
        (fun e => build_provider_record e.2.1 e.2.2)).map (fun p => p.npi)).Nodup := by
      rw [List.map_map]
      have hcongr : (accumulate items).map ((fun p => p.npi) ∘
          (fun e => build_provider_record e.2.1 e.2.2)) =
          (accumulate items).map Prod.fst := by
        refine List.map_congr_left ?_
        intro e he
        rcases accumulate_foldl_entries items [] e he with hh | hh
        · simpa [build_provider_record] using hh.2.1.symm
        · simp at hh
      rw [hcongr]
      exact accumulate_foldl_nodup items [] (by simp)
    have hfilter : ((((accumulate items).map
        (fun e => build_provider_record e.2.1 e.2.2)).filter
          (fun p => normalize_state p.state == "IN")).map (fun p => p.npi)).Nodup :=
      (List.Sublist.map _ (List.filter_sublist _)).nodup hkeys
    exact hfilter.perm ((List.mergeSort_perm _ _).map _).symm

def demo_item_C6b : Item :=
  { number := "100"
    basic := { organization_name := "Acme Clinic", first_name := "", last_name := "",
               credential := "", enumeration_date := "2001-02-03" }
    taxonomies := [{ code := "207RE0101X", desc := "" }]
    addresses := [demo_addr_location]
    authorized_official_org := "" }

/-- Witness for C6: two raw records share NPI 100; lookup returns the
later one, and the emitted payload has no duplicate NPI. -/
theorem claim_C6_witness :
    dictLookup "100" (accumulate [demo_item_C7, demo_item_C6b]) =
      some (demo_item_C6b, pick_location_address demo_item_C6b) ∧
    ((main_payload "NOW" [demo_item_C7, demo_item_C6b] none).1.providers.map
      (fun p => p.npi)).Nodup := by
  constructor
  · rw [(claim_C6 "NOW" [demo_item_C7, demo_item_C6b] none).2.1 "100"]
    decide
  · exact (claim_C6 "NOW" [demo_item_C7, demo_item_C6b] none).2.2 (by decide)

/-- Unfolds the comparator derived from the script's sort key tuple
(0 if endocrinologist else 1, city, name) into the claim's description:
privileged flag first (true before false), then locality, then display
name, each string compared case-sensitively by code point. -/
lemma sort_key_le_iff (p q : Provider) :
    sort_key_le p q = true ↔
      ((p.is_endocrinologist = true ∧ q.is_endocrinologist = false) ∨
       (p.is_endocrinologist = q.is_endocrinologist ∧
         (p.city < q.city ∨ (p.city = q.city ∧ p.name ≤ q.name)))) := by
  simp only [sort_key_le, decide_eq_true_eq, sort_key]
  rw [Prod.Lex.le_iff]
  cases hp : p.is_endocrinologist <;> cases hq : q.is_endocrinologist <;>
    simp [Prod.Lex.le_iff]

/-- C8: in the classification-first ranking mode (the fresh path of
main), the emitted provider list is sorted by the privileged flag (true
before false), then locality, then display name as a case-sensitive
lexical final tie-break. -/
theorem claim_C8 (now : String) (items : List Item) (cached : Option Snapshot)
    (h : accumulate items ≠ []) :
    List.Sorted (fun p q : Provider =>
        (p.is_endocrinologist = true ∧ q.is_endocrinologist = false) ∨
        (p.is_endocrinologist = q.is_endocrinologist ∧
          (p.city < q.city ∨ (p.city = q.city ∧ p.name ≤ q.name))))
      ((main_payload now items cached).1.providers) := by
  have htrans : ∀ a b c : Provider, sort_key_le a b = true → sort_key_le b c = true →
      sort_key_le a c = true := by
    intro a b c h1 h2
    simp only [sort_key_le, decide_eq_true_eq] at h1 h2 ⊢
    exact le_trans h1 h2
  have htotal : ∀ a b : Provider, (sort_key_le a b || sort_key_le b a) = true := by
    intro a b
    simp only [sort_key_le, Bool.or_eq_true, decide_eq_true_eq]
    exact le_total _ _
  simp only [main_payload, if_neg h, fresh_snapshot, fresh_providers]
  have hs := List.sorted_mergeSort htrans htotal
    (((accumulate items).map (fun e => build_provider_record e.2.1 e.2.2)).filter
      (fun p => normalize_state p.state == "IN"))
  exact hs.imp (fun hab => (sort_key_le_iff _ _).mp hab)

/-- Witness for C8 on a run with one eligible record. -/
theorem claim_C8_witness :
    List.Sorted (fun p q : Provider =>
        (p.is_endocrinologist = true ∧ q.is_endocrinologist = false) ∨
        (p.is_endocrinologist = q.is_endocrinologist ∧
          (p.city < q.city ∨ (p.city = q.city ∧ p.name ≤ q.name))))
      ((main_payload "NOW" [demo_item_C7] none).1.providers) :=
  claim_C8 "NOW" [demo_item_C7] none (by decide)

end BuildDirectory
